import Mathlib

/-!
meter-reader: protocol layer, shallow embedding
===============================================

A shallow embedding of the binary protocol layer of the `meter-reader`
repository, together with theorems settling the specification claims.

Sources embedded:
* `src/meterreader_models/src/lib.rs` — the three response decoders
  (`MeterSectionInfo::from_response`, `MeterSampleValue::from_response` with its
  helpers `first_value`/`second_value`, `MeterValue::from_data`);
* `src/meterreader/src/main.rs` — command framing (`gen_cmd`), the set-time
  command construction (`Meter::set_time`), and the offset-paging computation
  inside `Meter::read_samples`.

Modelling conventions:
* Bytes are `Nat` (a `u8` is always `< 256`; every operation below masks its
  inputs, so no theorem needs that bound).
* Rust panics (failed `assert!`, slice-index panics, integer division by zero)
  are modelled as `none`; each spot is marked by a comment.
* The Rust decoders compute temperatures as
  `f32::from(int_part) + f32::from(digit) / 10.0` with `int_part ≤ 0x7f` and
  `digit ≤ 0xf` — exact multiples of one tenth in the spec's words
  ("signed fixed-point, one decimal digit of precision").  We represent such a
  temperature exactly as the signed integer number of tenths:
  `±(10 * int_part + digit)`, so `24.7` is `247`.
-/

namespace MeterReader

def RESPONSE_OK : Nat := 1
def CMD_SET_TIME : Nat := 5
def CMD_READ_INDEX_INFO : Nat := 59
def CMD_READ_SAMPLE_INFO : Nat := 60
def SAMPLE_COUNT : Nat := 6

/-- Big-endian value of a byte list: Rust's `uN::from_be_bytes`. -/
def fromBeBytes (l : List Nat) : Nat := l.foldl (fun acc b => 256 * acc + b) 0

structure MeterSectionInfo where
  start_time : Nat
  end_time : Nat
  data_length : Nat
  interval : Nat
deriving DecidableEq

/-- `MeterSectionInfo::from_response` from `meterreader_models/src/lib.rs`:
rejects inputs shorter than 13 bytes or whose status byte is not `RESPONSE_OK`,
otherwise reads the four big-endian fields from the fixed slices
`data[1..5]`, `data[5..9]`, `data[9..11]`, `data[11..13]`. -/
def MeterSectionInfo.from_response (data : List Nat) : Option MeterSectionInfo :=
  if data.length < 13 ∨ data.headD 0 ≠ RESPONSE_OK then none
  else
    some { start_time := fromBeBytes ((data.drop 1).take 4)
         , end_time := fromBeBytes ((data.drop 5).take 4)
         , data_length := fromBeBytes ((data.drop 9).take 2)
         , interval := fromBeBytes ((data.drop 11).take 2) }

structure MeterSampleValue where
  /-- signed number of tenths of a degree (see the module docstring) -/
  temperature : ℤ
  humidity : Nat
deriving DecidableEq

/-- `MeterSampleValue::first_value`: decodes the first reading of a 5-byte
window.  The `none` branch models the Rust `assert!(data.len() >= 3)` panic. -/
def MeterSampleValue.first_value (data : List Nat) : Option MeterSampleValue :=
  if 3 ≤ data.length then
    let magnitude : Nat := 10 * (data.getD 0 0 &&& 0x7f) + ((data.getD 2 0 >>> 4) &&& 0xf)
    some { temperature := if data.getD 0 0 &&& 0x80 = 0 then -(magnitude : ℤ) else magnitude
         , humidity := data.getD 1 0 &&& 0x7f }
  else none

/-- `MeterSampleValue::second_value`: decodes the second reading of a 5-byte
window.  The `none` branch models the Rust `assert!(data.len() >= 5)` panic. -/
def MeterSampleValue.second_value (data : List Nat) : Option MeterSampleValue :=
  if 5 ≤ data.length then
    let magnitude : Nat := 10 * (data.getD 3 0 &&& 0x7f) + (data.getD 2 0 &&& 0xf)
    some { temperature := if data.getD 3 0 &&& 0x80 = 0 then -(magnitude : ℤ) else magnitude
         , humidity := data.getD 4 0 &&& 0x7f }
  else none

/-- Rust's `(start..stop).step_by(step)` iterator, as a list: the elements are
`start + step * k` for `k < ⌈(stop - start) / step⌉`. -/
def stepBy (start stop step : Nat) : List Nat :=
  (List.range ((stop - start + step - 1) / step)).map fun k => start + step * k

/-- One iteration of the `for` loop in `MeterSampleValue::from_response`:
`result.push(first_value(&data[i..])); result.push(second_value(&data[i..]))`,
with the `Option` bind threading the (never-firing) assertion panics. -/
def pushWindow (data : List Nat) (result : List MeterSampleValue) (i : Nat) :
    Option (List MeterSampleValue) := do
  let v1 ← MeterSampleValue.first_value (data.drop i)
  let v2 ← MeterSampleValue.second_value (data.drop i)
  pure (result ++ [v1, v2])

/-- `MeterSampleValue::from_response`: rejects inputs shorter than 6 bytes,
with a status byte other than `RESPONSE_OK`, or whose length minus one is not
a multiple of 5; otherwise pushes the two readings of each 5-byte window
`data[i..]` for `i in (1..(data.len() - 1)).step_by(5)`. -/
def MeterSampleValue.from_response (data : List Nat) : Option (List MeterSampleValue) :=
  if data.length < 6 ∨ data.headD 0 ≠ RESPONSE_OK ∨ (data.length - 1) % 5 ≠ 0 then none
  else (stepBy 1 (data.length - 1) 5).foldlM (pushWindow data) []

structure MeterValue where
  /-- signed number of tenths of a degree (see the module docstring) -/
  temperature : ℤ
  humidity : Nat
  battery : Nat
deriving DecidableEq

/-- `MeterValue::from_data`: rejects inputs whose length is not exactly 6 or
whose byte 0 is not the device-type marker `105`; otherwise decodes the live
reading from bytes 2–5. -/
def MeterValue.from_data (data : List Nat) : Option MeterValue :=
  if data.length ≠ 6 ∨ data.headD 0 ≠ 105 then none
  else
    let magnitude : Nat := 10 * (data.getD 4 0 &&& 0x7f) + (data.getD 3 0 &&& 0xf)
    some { temperature := if data.getD 4 0 &&& 0x80 = 0 then -(magnitude : ℤ) else magnitude
         , humidity := data.getD 5 0 &&& 0x7f
         , battery := data.getD 2 0 &&& 0x7f }

/-- `gen_cmd` from `meterreader/src/main.rs`: a zero-filled vector of length
`3 + payload_length` whose first three bytes are then overwritten. -/
def gen_cmd (cmd : Nat) (payload_length : Nat) : List Nat :=
  let data := List.replicate (3 + payload_length) 0
  ((data.set 0 0x57).set 1 (if 0x0f < cmd then 0x0f else 0)).set 2 cmd

/-- The big-endian byte list of an `i64`: Rust's `i64::to_be_bytes`, i.e. the
eight big-endian bytes of the timestamp's two's-complement value mod `2 ^ 64`. -/
def i64ToBeBytes (t : ℤ) : List Nat :=
  let n := (t % (2 ^ 64 : ℤ)).toNat
  (List.range 8).map fun j => (n >>> (8 * (7 - j))) &&& 0xff

/-- The set-time command built by `Meter::set_time`, with the clock reading
`Local::now().timestamp()` passed in as the parameter `now`:
`gen_cmd(CMD_SET_TIME, 10)`, then `cmd[i] = 3`, `cmd[i + 1] = 0` for
`i = cmd.len() - 10`, then the eight timestamp bytes at `cmd[i + 2 + j]`. -/
def set_time_cmd (now : ℤ) : List Nat :=
  let cmd := gen_cmd CMD_SET_TIME 10
  let i := cmd.length - 10
  let cmd := (cmd.set i 3).set (i + 1) 0
  (i64ToBeBytes now).enum.foldl (fun c jb => c.set (i + 2 + jb.1) jb.2) cmd

/-- The offset plan computed inside `Meter::read_samples`
(`meterreader/src/main.rs`): `all_iter` is
`(0..(data_length / SAMPLE_COUNT) * SAMPLE_COUNT).step_by(SAMPLE_COUNT)`; with
a duration bound the code takes the last
`(samples_wanted + SAMPLE_COUNT - 1) / SAMPLE_COUNT` offsets via
`rev().take(..).rev()`, where
`samples_wanted = duration.num_seconds() / interval`.  The `none` branch
models the Rust panic: with `interval == 0` the division
`duration.num_seconds() / usize::from(section_info.interval)` divides by zero
(there is no guard in the source). -/
def read_samples_plan (si : MeterSectionInfo) (duration : Option Nat) : Option (List Nat) :=
  let all_iter := stepBy 0 (si.data_length / SAMPLE_COUNT * SAMPLE_COUNT) SAMPLE_COUNT
  match duration with
  | some d =>
      if si.interval = 0 then none
      else
        let samples_wanted := d / si.interval
        some ((all_iter.reverse.take ((samples_wanted + SAMPLE_COUNT - 1) / SAMPLE_COUNT)).reverse)
  | none => some all_iter

/-- The first reading of the window `data[i..]`, written out with absolute
indices into `data`; `MeterSampleValue.first_value (data.drop i)` returns
exactly this value whenever the window assertion holds (proved below). -/
def firstAt (data : List Nat) (i : Nat) : MeterSampleValue :=
  { temperature :=
      if data.getD i 0 &&& 0x80 = 0
      then -((10 * (data.getD i 0 &&& 0x7f) + ((data.getD (i + 2) 0 >>> 4) &&& 0xf) : Nat) : ℤ)
      else ((10 * (data.getD i 0 &&& 0x7f) + ((data.getD (i + 2) 0 >>> 4) &&& 0xf) : Nat) : ℤ)
  , humidity := data.getD (i + 1) 0 &&& 0x7f }

/-- The second reading of the window `data[i..]`, with absolute indices. -/
def secondAt (data : List Nat) (i : Nat) : MeterSampleValue :=
  { temperature :=
      if data.getD (i + 3) 0 &&& 0x80 = 0
      then -((10 * (data.getD (i + 3) 0 &&& 0x7f) + (data.getD (i + 2) 0 &&& 0xf) : Nat) : ℤ)
      else ((10 * (data.getD (i + 3) 0 &&& 0x7f) + (data.getD (i + 2) 0 &&& 0xf) : Nat) : ℤ)
  , humidity := data.getD (i + 4) 0 &&& 0x7f }

/-- Follows the spec's words, for the refinement claim about
`MeterSampleValue::from_response`: the `k`-th 5-byte window after the status
byte is `[b0, b1, b2, b3, b4]` and contributes first the reading with integer
part `b0 &&& 0x7f`, fractional digit the high nibble of `b2`, sign positive
exactly when bit 7 of `b0` is set, humidity `b1 &&& 0x7f`, and then the
reading with integer part `b3 &&& 0x7f`, fractional digit the low nibble of
`b2`, sign positive exactly when bit 7 of `b3` is set, humidity `b4 &&& 0x7f`.
(Temperatures in signed tenths, as everywhere in this file.) -/
def specWindow (data : List Nat) (k : Nat) : List MeterSampleValue :=
  let b0 := data.getD (1 + 5 * k) 0
  let b1 := data.getD (2 + 5 * k) 0
  let b2 := data.getD (3 + 5 * k) 0
  let b3 := data.getD (4 + 5 * k) 0
  let b4 := data.getD (5 + 5 * k) 0
  let mag1 : Nat := 10 * (b0 &&& 0x7f) + ((b2 >>> 4) &&& 0xf)
  let mag2 : Nat := 10 * (b3 &&& 0x7f) + (b2 &&& 0xf)
  [ { temperature := if b0.testBit 7 then (mag1 : ℤ) else -(mag1 : ℤ)
    , humidity := b1 &&& 0x7f }
  , { temperature := if b3.testBit 7 then (mag2 : ℤ) else -(mag2 : ℤ)
    , humidity := b4 &&& 0x7f } ]

/-- Follows the spec's words: walk the bytes after the status byte in
non-overlapping 5-byte windows in input order, each contributing its two
readings (`specWindow`); there are `(length - 1) / 5` whole windows. -/
def specSampleWalk (data : List Nat) : List MeterSampleValue :=
  (List.range ((data.length - 1) / 5)).flatMap (specWindow data)

/-!  ## Helper lemmas  -/

lemma getD_drop (l : List Nat) (i k : Nat) : (l.drop i).getD k 0 = l.getD (i + k) 0 := by
  simp [List.getD_eq_getElem?_getD, List.getElem?_drop]

/-- The sign convention of all three decoders: the Rust negation-on-clear-bit
of `b & 0x80` selects the positive branch exactly when bit 7 is set. -/
lemma sign_select (b : Nat) (m : ℤ) :
    (if b &&& 0x80 = 0 then -m else m) = if b.testBit 7 then m else -m := by
  rw [show (0x80 : Nat) = 2 ^ 7 by norm_num, Nat.and_two_pow]
  cases hb : b.testBit 7 <;> simp

lemma first_value_drop (data : List Nat) (i : Nat) (h : 3 ≤ data.length - i) :
    MeterSampleValue.first_value (data.drop i) = some (firstAt data i) := by
  unfold MeterSampleValue.first_value firstAt
  rw [List.length_drop, if_pos h]
  simp [getD_drop]

lemma second_value_drop (data : List Nat) (i : Nat) (h : 5 ≤ data.length - i) :
    MeterSampleValue.second_value (data.drop i) = some (secondAt data i) := by
  unfold MeterSampleValue.second_value secondAt
  rw [List.length_drop, if_pos h]
  simp [getD_drop]

lemma pushWindow_eq (data : List Nat) (result : List MeterSampleValue) (i : Nat)
    (h : 5 ≤ data.length - i) :
    pushWindow data result i = some (result ++ [firstAt data i, secondAt data i]) := by
  unfold pushWindow
  rw [first_value_drop data i (by omega), second_value_drop data i h]
  rfl

lemma foldlM_pushWindow (data : List Nat) (idxs : List Nat) :
    ∀ acc : List MeterSampleValue, (∀ i ∈ idxs, 5 ≤ data.length - i) →
      idxs.foldlM (pushWindow data) acc =
        some (acc ++ idxs.flatMap fun i => [firstAt data i, secondAt data i]) := by
  induction idxs with
  | nil => intro acc _; simp
  | cons x xs ih =>
      intro acc h
      rw [List.foldlM_cons, pushWindow_eq data acc x (h x (by simp))]
      show List.foldlM (pushWindow data) (acc ++ [firstAt data x, secondAt data x]) xs = _
      rw [ih (acc ++ [firstAt data x, secondAt data x]) (fun i hi => h i (by simp [hi]))]
      simp [List.flatMap_cons, List.append_assoc]

/-- The loop's index iterator, in closed form: under the guard the indices are
exactly `1 + 5 * k` for the `n` whole windows. -/
lemma stepBy_sample (n : Nat) : stepBy 1 (5 * n) 5 = (List.range n).map fun k => 1 + 5 * k := by
  unfold stepBy
  have hc : (5 * n - 1 + 5 - 1) / 5 = n := by omega
  rw [hc]

lemma windowAt_spec (data : List Nat) (k : Nat) :
    [firstAt data (1 + 5 * k), secondAt data (1 + 5 * k)] = specWindow data k := by
  have e1 : 1 + 5 * k + 1 = 2 + 5 * k := by omega
  have e2 : 1 + 5 * k + 2 = 3 + 5 * k := by omega
  have e3 : 1 + 5 * k + 3 = 4 + 5 * k := by omega
  have e4 : 1 + 5 * k + 4 = 5 + 5 * k := by omega
  unfold firstAt secondAt specWindow
  rw [e1, e2, e3, e4, sign_select, sign_select]

lemma specSampleWalk_length (data : List Nat) :
    (specSampleWalk data).length = 2 * ((data.length - 1) / 5) := by
  have hsum : ∀ m : Nat, ((List.range m).map fun _ => 2).sum = 2 * m := by
    intro m
    induction m with
    | zero => rfl
    | succ m ih => rw [List.range_succ]; simp [ih]; omega
  unfold specSampleWalk
  rw [List.length_flatMap]
  have h2 : ∀ k, (specWindow data k).length = 2 := fun k => rfl
  simp only [Function.comp_def, h2]
  exact hsum _

/-- Under the three guards, `MeterSampleValue::from_response` succeeds and
returns precisely the spec's window walk. -/
lemma from_response_eq_walk (data : List Nat) (h6 : 6 ≤ data.length)
    (h1 : data.headD 0 = RESPONSE_OK) (h5 : (data.length - 1) % 5 = 0) :
    MeterSampleValue.from_response data = some (specSampleWalk data) := by
  obtain ⟨n, hn⟩ : ∃ n, data.length - 1 = 5 * n := ⟨(data.length - 1) / 5, by omega⟩
  unfold MeterSampleValue.from_response
  rw [if_neg (by push_neg; exact ⟨by omega, h1, h5⟩)]
  rw [hn, stepBy_sample n]
  rw [foldlM_pushWindow data _ [] ?side]
  case side =>
    intro i hi
    simp only [List.mem_map, List.mem_range] at hi
    obtain ⟨k, hk, rfl⟩ := hi
    omega
  rw [List.flatMap_map]
  unfold specSampleWalk
  rw [hn, Nat.mul_div_cancel_left n (by norm_num)]
  rw [List.nil_append]
  exact congrArg some
    (congrArg (fun f => (List.range n).flatMap f) (funext fun k => windowAt_spec data k))

lemma drop_two (l : List Nat) (i : Nat) (h : i + 2 ≤ l.length) :
    ∃ a b rest, l.drop i = a :: b :: rest ∧ l.getD i 0 = a ∧ l.getD (i + 1) 0 = b := by
  have hlen : 2 ≤ (l.drop i).length := by rw [List.length_drop]; omega
  have hgd : ∀ k x, (l.drop i).getD k 0 = x → l.getD (i + k) 0 = x :=
    fun k x hx => by rw [← getD_drop]; exact hx
  rcases hd : l.drop i with _ | ⟨a, _ | ⟨b, rest⟩⟩ <;> rw [hd] at hlen
  · simp at hlen
  · simp at hlen
  exact ⟨a, b, rest, rfl, by simpa using hgd 0 a (by rw [hd]; rfl), hgd 1 b (by rw [hd]; rfl)⟩

lemma drop_four (l : List Nat) (i : Nat) (h : i + 4 ≤ l.length) :
    ∃ a b c d rest, l.drop i = a :: b :: c :: d :: rest ∧
      l.getD i 0 = a ∧ l.getD (i + 1) 0 = b ∧ l.getD (i + 2) 0 = c ∧ l.getD (i + 3) 0 = d := by
  have hlen : 4 ≤ (l.drop i).length := by rw [List.length_drop]; omega
  have hgd : ∀ k x, (l.drop i).getD k 0 = x → l.getD (i + k) 0 = x :=
    fun k x hx => by rw [← getD_drop]; exact hx
  rcases hd : l.drop i with _ | ⟨a, _ | ⟨b, _ | ⟨c, _ | ⟨d, rest⟩⟩⟩⟩ <;> rw [hd] at hlen
  · simp at hlen
  · simp at hlen
  · simp at hlen
  · simp at hlen
  exact ⟨a, b, c, d, rest, rfl, by simpa using hgd 0 a (by rw [hd]; rfl),
    hgd 1 b (by rw [hd]; rfl), hgd 2 c (by rw [hd]; rfl), hgd 3 d (by rw [hd]; rfl)⟩

lemma fromBeBytes_take4 (l : List Nat) (i : Nat) (h : i + 4 ≤ l.length) :
    fromBeBytes ((l.drop i).take 4) =
      2 ^ 24 * l.getD i 0 + 2 ^ 16 * l.getD (i + 1) 0 + 2 ^ 8 * l.getD (i + 2) 0
        + l.getD (i + 3) 0 := by
  obtain ⟨a, b, c, d, rest, hd, ha, hb, hc, hdd⟩ := drop_four l i h
  rw [hd, ha, hb, hc, hdd]
  show fromBeBytes [a, b, c, d] = _
  simp [fromBeBytes]
  ring

lemma fromBeBytes_take2 (l : List Nat) (i : Nat) (h : i + 2 ≤ l.length) :
    fromBeBytes ((l.drop i).take 2) = 2 ^ 8 * l.getD i 0 + l.getD (i + 1) 0 := by
  obtain ⟨a, b, rest, hd, ha, hb⟩ := drop_two l i h
  rw [hd, ha, hb]
  show fromBeBytes [a, b] = _
  simp [fromBeBytes]

/-- Under its two guards, `MeterSectionInfo::from_response` returns the four
big-endian fields, with no further validation of their values. -/
lemma section_decode_some (data : List Nat) (h13 : 13 ≤ data.length)
    (h1 : data.headD 0 = RESPONSE_OK) :
    MeterSectionInfo.from_response data = some
      { start_time := 2 ^ 24 * data.getD 1 0 + 2 ^ 16 * data.getD 2 0
          + 2 ^ 8 * data.getD 3 0 + data.getD 4 0
      , end_time := 2 ^ 24 * data.getD 5 0 + 2 ^ 16 * data.getD 6 0
          + 2 ^ 8 * data.getD 7 0 + data.getD 8 0
      , data_length := 2 ^ 8 * data.getD 9 0 + data.getD 10 0
      , interval := 2 ^ 8 * data.getD 11 0 + data.getD 12 0 } := by
  unfold MeterSectionInfo.from_response
  rw [if_neg (by push_neg; exact ⟨by omega, h1⟩)]
  rw [fromBeBytes_take4 data 1 (by omega), fromBeBytes_take4 data 5 (by omega),
    fromBeBytes_take2 data 9 (by omega), fromBeBytes_take2 data 11 (by omega)]

lemma section_decode_none_iff (data : List Nat) :
    MeterSectionInfo.from_response data = none ↔
      data.length < 13 ∨ data.headD 0 ≠ RESPONSE_OK := by
  unfold MeterSectionInfo.from_response
  by_cases hg : data.length < 13 ∨ data.headD 0 ≠ RESPONSE_OK
  · rw [if_pos hg]; exact iff_of_true rfl hg
  · rw [if_neg hg]; exact iff_of_false (by simp) hg

lemma headD_take13 (data : List Nat) : (data.take 13).headD 0 = data.headD 0 := by
  cases data <;> rfl

lemma getD_take_lt (l : List Nat) (n j : Nat) (h : j < n) :
    (l.take n).getD j 0 = l.getD j 0 := by
  simp [List.getD_eq_getElem?_getD, List.getElem?_take, h]

/-- `stepBy` with a positive step is strictly ascending. -/
lemma stepBy_sorted (start stop step : Nat) (hs : 0 < step) :
    (stepBy start stop step).Sorted (· < ·) := by
  unfold stepBy
  rw [List.Sorted, List.pairwise_map]
  refine (List.pairwise_lt_range _).imp fun hab => ?_
  have := Nat.mul_lt_mul_of_pos_left hab hs
  omega

/-- `gen_cmd`, in closed form. -/
lemma gen_cmd_eq (c pl : Nat) :
    gen_cmd c pl = 0x57 :: (if 0x0f < c then 0x0f else 0) :: c :: List.replicate pl 0 := by
  unfold gen_cmd
  rw [Nat.add_comm 3 pl]
  simp [List.replicate_succ]

/-!  ## Claim theorems  -/

/-- Claim C1: for every byte sequence accepted by `MeterSampleValue::from_response`
(length at least 6, status byte `RESPONSE_OK`, length minus one a multiple of
5), the returned sequence is exactly the spec's walk over non-overlapping
5-byte windows after the status byte, in input order, each window contributing
its first and then its second reading with the stated bit layout
(`specSampleWalk`), and it has exactly `2 * (length - 1) / 5` readings; in
particular the fixture block decodes to the four readings 24.7/40, 24.7/40,
24.7/40, 24.8/40 (temperatures in signed tenths). -/
theorem c1_sample_block_decode (data : List Nat) (h6 : 6 ≤ data.length)
    (h1 : data.headD 0 = RESPONSE_OK) (h5 : (data.length - 1) % 5 = 0) :
    MeterSampleValue.from_response data = some (specSampleWalk data) ∧
    (specSampleWalk data).length = 2 * ((data.length - 1) / 5) ∧
    MeterSampleValue.from_response [1, 152, 40, 119, 152, 40, 152, 40, 120, 152, 40] =
      some [⟨247, 40⟩, ⟨247, 40⟩, ⟨247, 40⟩, ⟨248, 40⟩] :=
  ⟨from_response_eq_walk data h6 h1 h5, specSampleWalk_length data, by decide⟩

theorem c1_witness :
    MeterSampleValue.from_response [1, 152, 40, 119, 152, 40, 152, 40, 120, 152, 40] =
      some (specSampleWalk [1, 152, 40, 119, 152, 40, 152, 40, 120, 152, 40]) :=
  (c1_sample_block_decode [1, 152, 40, 119, 152, 40, 152, 40, 120, 152, 40]
    (by decide) (by decide) (by decide)).1

/-- Claim C2: for every `SectionInfo` with positive interval and every
requested duration `d` (in seconds), the duration-bounded plan is obtained by
the two-step rounding `samples_wanted = d / interval` (truncating) followed by
`blocks_wanted = ⌈samples_wanted / SAMPLE_COUNT⌉` (the fifth and sixth
conjuncts pin `(samples_wanted + SAMPLE_COUNT - 1) / SAMPLE_COUNT` as exactly
that ceiling), and equals the suffix of the full offset sequence with exactly
`min blocks_wanted total_blocks` entries, in ascending order. -/
theorem c2_duration_bounded_plan (si : MeterSectionInfo) (d : Nat) (h : 0 < si.interval) :
    ∃ plan,
      read_samples_plan si (some d) = some plan ∧
      read_samples_plan si none =
        some (stepBy 0 (si.data_length / SAMPLE_COUNT * SAMPLE_COUNT) SAMPLE_COUNT) ∧
      plan = (stepBy 0 (si.data_length / SAMPLE_COUNT * SAMPLE_COUNT) SAMPLE_COUNT).drop
        ((stepBy 0 (si.data_length / SAMPLE_COUNT * SAMPLE_COUNT) SAMPLE_COUNT).length
          - (d / si.interval + SAMPLE_COUNT - 1) / SAMPLE_COUNT) ∧
      plan.length =
        min ((d / si.interval + SAMPLE_COUNT - 1) / SAMPLE_COUNT)
          (si.data_length / SAMPLE_COUNT) ∧
      d / si.interval ≤ SAMPLE_COUNT * ((d / si.interval + SAMPLE_COUNT - 1) / SAMPLE_COUNT) ∧
      SAMPLE_COUNT * ((d / si.interval + SAMPLE_COUNT - 1) / SAMPLE_COUNT)
        < d / si.interval + SAMPLE_COUNT ∧
      plan <:+ stepBy 0 (si.data_length / SAMPLE_COUNT * SAMPLE_COUNT) SAMPLE_COUNT ∧
      plan.Sorted (· < ·) := by
  have hi0 : ¬si.interval = 0 := by omega
  obtain ⟨s, hs⟩ : ∃ s, d / si.interval = s := ⟨_, rfl⟩
  simp only [SAMPLE_COUNT, hs]
  set full := stepBy 0 (si.data_length / 6 * 6) 6 with hfull
  have hfl : full.length = si.data_length / 6 := by
    rw [hfull]
    unfold stepBy
    rw [List.length_map, List.length_range]
    omega
  have hplan : (full.reverse.take ((s + 6 - 1) / 6)).reverse =
      full.drop (full.length - (s + 6 - 1) / 6) := by
    rw [← List.rtake_eq_reverse_take_reverse]
    rfl
  have hpw : full.Pairwise (· < ·) := stepBy_sorted _ _ _ (by decide)
  refine ⟨(full.reverse.take ((s + 6 - 1) / 6)).reverse, ?_, rfl, by rw [hplan], ?_, ?_, ?_,
    ?_, ?_⟩
  · simp only [read_samples_plan, hi0, if_false, SAMPLE_COUNT, hs]
  · rw [hplan, List.length_drop, hfl]
    omega
  · omega
  · omega
  · rw [hplan]
    exact List.drop_suffix _ _
  · rw [hplan]
    exact hpw.sublist (List.drop_sublist _ _)

theorem c2_witness :
    ∃ plan, read_samples_plan ⟨0, 0, 36, 120⟩ (some 600) = some plan ∧ plan.length = 1 := by
  obtain ⟨p, h1, _, _, h4, _⟩ := c2_duration_bounded_plan ⟨0, 0, 36, 120⟩ 600 (by decide)
  refine ⟨p, h1, ?_⟩
  rw [h4]
  decide

/-- Claim C3: for every `SectionInfo`, the unbounded plan (no duration) is
exactly the ascending sequence of the multiples of 6 strictly below
`data_length / 6 * 6` — any trailing partial block is truncated — requested in
ascending order. -/
theorem c3_unbounded_plan (si : MeterSectionInfo) :
    ∃ l, read_samples_plan si none = some l ∧
      (∀ x, x ∈ l ↔ x % 6 = 0 ∧ x < si.data_length / 6 * 6) ∧
      l.Sorted (· < ·) := by
  refine ⟨stepBy 0 (si.data_length / SAMPLE_COUNT * SAMPLE_COUNT) SAMPLE_COUNT, rfl, ?_,
    stepBy_sorted _ _ _ (by decide)⟩
  intro x
  unfold stepBy
  simp only [List.mem_map, List.mem_range, SAMPLE_COUNT]
  constructor
  · rintro ⟨k, hk, rfl⟩
    omega
  · rintro ⟨hx6, hxlt⟩
    exact ⟨x / 6, by omega, by omega⟩

/-- Claim C4 (refuted — code bug): the spec requires an explicit guard for
`interval == 0` in the duration-bounded plan, but `Meter::read_samples` has no
such guard: it evaluates
`duration.num_seconds() / usize::from(section_info.interval)`, an integer
division by zero, which panics in Rust.  The `none` below is the modelled
panic (see `read_samples_plan`), reached at interval 0 with any requested
duration — not a graceful "no plan" return. -/
theorem c4_interval_zero_division :
    read_samples_plan ⟨0, 0, 36, 0⟩ (some 60) = none := by decide

/-- Claim C5: `MeterSampleValue::from_response` returns no data exactly when
the input is shorter than 6 bytes, or its first byte is not `RESPONSE_OK`, or
its length minus one is not a multiple of 5; every other input decodes
wholesale to `some`. -/
theorem c5_sample_block_rejection (data : List Nat) :
    MeterSampleValue.from_response data = none ↔
      data.length < 6 ∨ data.headD 0 ≠ RESPONSE_OK ∨ (data.length - 1) % 5 ≠ 0 := by
  constructor
  · intro h
    by_contra hc
    push_neg at hc
    rw [from_response_eq_walk data (by omega) hc.2.1 hc.2.2] at h
    exact Option.noConfusion h
  · intro h
    unfold MeterSampleValue.from_response
    rw [if_pos h]

/-- Claim C6: `MeterSectionInfo::from_response` returns no data exactly when
the input is shorter than 13 bytes or its first byte is not `RESPONSE_OK`;
every other input yields `some` with the big-endian fields read from bytes
1–4, 5–8, 9–10 and 11–12, with no further validation — in particular an input
with `interval = 0` and `end_time < start_time` is accepted (third conjunct). -/
theorem c6_section_info_decode (data : List Nat) :
    (MeterSectionInfo.from_response data = none ↔
      data.length < 13 ∨ data.headD 0 ≠ RESPONSE_OK) ∧
    (13 ≤ data.length → data.headD 0 = RESPONSE_OK →
      MeterSectionInfo.from_response data = some
        { start_time := 2 ^ 24 * data.getD 1 0 + 2 ^ 16 * data.getD 2 0
            + 2 ^ 8 * data.getD 3 0 + data.getD 4 0
        , end_time := 2 ^ 24 * data.getD 5 0 + 2 ^ 16 * data.getD 6 0
            + 2 ^ 8 * data.getD 7 0 + data.getD 8 0
        , data_length := 2 ^ 8 * data.getD 9 0 + data.getD 10 0
        , interval := 2 ^ 8 * data.getD 11 0 + data.getD 12 0 }) ∧
    MeterSectionInfo.from_response [1, 0, 0, 0, 5, 0, 0, 0, 1, 0, 10, 0, 0] =
      some { start_time := 5, end_time := 1, data_length := 10, interval := 0 } :=
  ⟨section_decode_none_iff data, fun h13 h1 => section_decode_some data h13 h1, by decide⟩

theorem c6_witness :
    MeterSectionInfo.from_response [1, 97, 160, 191, 231, 97, 162, 162, 63, 4, 6, 0, 120] =
      some ⟨1637924839, 1638048319, 1030, 120⟩ := by
  have h := (c6_section_info_decode [1, 97, 160, 191, 231, 97, 162, 162, 63, 4, 6, 0, 120]).2.1
    (by decide) (by decide)
  rw [h]
  decide

/-- Claim C7: `MeterValue::from_data` returns no data for every input whose
length is not exactly 6 or whose byte 0 is not 105; every other input decodes
with integer part `byte4 &&& 0x7f`, fractional digit the low nibble of byte 3,
sign positive exactly when bit 7 of byte 4 is set, humidity `byte5 &&& 0x7f`,
battery `byte2 &&& 0x7f`; in particular the fixture advertisement decodes to
temperature 24.9 (249 tenths), humidity 40, battery 100. -/
theorem c7_live_value_decode (data : List Nat) :
    (MeterValue.from_data data = none ↔ data.length ≠ 6 ∨ data.headD 0 ≠ 105) ∧
    (data.length = 6 → data.headD 0 = 105 →
      MeterValue.from_data data = some
        { temperature :=
            if (data.getD 4 0).testBit 7
            then ((10 * (data.getD 4 0 &&& 0x7f) + (data.getD 3 0 &&& 0xf) : Nat) : ℤ)
            else -((10 * (data.getD 4 0 &&& 0x7f) + (data.getD 3 0 &&& 0xf) : Nat) : ℤ)
        , humidity := data.getD 5 0 &&& 0x7f
        , battery := data.getD 2 0 &&& 0x7f }) ∧
    MeterValue.from_data [105, 0, 228, 9, 152, 40] = some ⟨249, 40, 100⟩ := by
  refine ⟨?_, ?_, by decide⟩
  · unfold MeterValue.from_data
    by_cases hg : data.length ≠ 6 ∨ data.headD 0 ≠ 105
    · rw [if_pos hg]
      exact iff_of_true rfl hg
    · rw [if_neg hg]
      exact iff_of_false (by simp) hg
  · intro h6 h1
    unfold MeterValue.from_data
    rw [if_neg (by push_neg; exact ⟨h6, h1⟩)]
    simp only [sign_select]

theorem c7_witness :
    MeterValue.from_data [105, 0, 228, 9, 152, 40] = some ⟨249, 40, 100⟩ := by
  have h := (c7_live_value_decode [105, 0, 228, 9, 152, 40]).2.1 (by decide) (by decide)
  rw [h]
  decide

/-- Claim C8: every frame built by `gen_cmd` has length `3 + payload_length`,
byte 0 `0x57`, byte 1 `0x0f` exactly when the opcode exceeds `0x0f` (else 0),
byte 2 the opcode, and a zero-initialized payload; the set-time command
(opcode 5) is the 13-byte frame whose payload starts with the fixed tag
`3, 0` followed by the eight big-endian bytes of the signed 64-bit Unix
timestamp. -/
theorem c8_command_framing (c pl : Nat) (t : ℤ) :
    (gen_cmd c pl).length = 3 + pl ∧
    (gen_cmd c pl).getD 0 0 = 0x57 ∧
    (gen_cmd c pl).getD 1 0 = (if 0x0f < c then 0x0f else 0) ∧
    (gen_cmd c pl).getD 2 0 = c ∧
    (gen_cmd c pl).drop 3 = List.replicate pl 0 ∧
    set_time_cmd t = [0x57, 0, CMD_SET_TIME, 3, 0] ++ i64ToBeBytes t ∧
    (set_time_cmd t).length = 13 ∧
    (i64ToBeBytes t).length = 8 := by
  have hst : set_time_cmd t = [0x57, 0, CMD_SET_TIME, 3, 0] ++ i64ToBeBytes t := by
    simp [set_time_cmd, gen_cmd, i64ToBeBytes, CMD_SET_TIME, List.enum, List.enumFrom,
      List.range_succ, List.set]
  refine ⟨?_, ?_, ?_, ?_, ?_, hst, ?_, ?_⟩
  · rw [gen_cmd_eq]
    simp only [List.length_cons, List.length_replicate]
    omega
  · rw [gen_cmd_eq]
    rfl
  · rw [gen_cmd_eq]
    rfl
  · rw [gen_cmd_eq]
    rfl
  · rw [gen_cmd_eq]
    rfl
  · rw [hst]
    simp [i64ToBeBytes]
  · simp [i64ToBeBytes]

/-- Claim C9: the sample-block decoder is total — on every input that passes
the guards, each 5-byte window `data[i..]` visited by the loop
(`i ≡ 1 mod 5`, `i < length - 1`) has at least 5 bytes remaining, so the
window assertions of `first_value` (≥ 3) and `second_value` (≥ 5) hold and
the whole decode returns `some`. -/
theorem c9_sample_decode_total (data : List Nat) (i : Nat)
    (hmod : (data.length - 1) % 5 = 0) (hi : i % 5 = 1) (hlt : i < data.length - 1) :
    5 ≤ (data.drop i).length ∧
    (MeterSampleValue.first_value (data.drop i)).isSome ∧
    (MeterSampleValue.second_value (data.drop i)).isSome ∧
    (data.headD 0 = RESPONSE_OK → (MeterSampleValue.from_response data).isSome) := by
  have h5 : 5 ≤ data.length - i := by omega
  refine ⟨by rw [List.length_drop]; omega, ?_, ?_, ?_⟩
  · rw [first_value_drop data i (by omega)]
    rfl
  · rw [second_value_drop data i h5]
    rfl
  · intro h1
    rw [from_response_eq_walk data (by omega) h1 hmod]
    rfl

theorem c9_witness :
    (MeterSampleValue.from_response [1, 152, 40, 119, 152, 40, 152, 40, 120, 152, 40]).isSome :=
  (c9_sample_decode_total [1, 152, 40, 119, 152, 40, 152, 40, 120, 152, 40] 1
    (by decide) (by decide) (by decide)).2.2.2 (by decide)

/-- Claim C10: `MeterSectionInfo::from_response` depends only on the first 13
bytes of its input — for every byte sequence of length at least 13, decoding
it equals decoding its first 13 bytes, so trailing bytes are ignored. -/
theorem c10_section_info_take13 (data : List Nat) (h : 13 ≤ data.length) :
    MeterSectionInfo.from_response data = MeterSectionInfo.from_response (data.take 13) := by
  have hh : (data.take 13).headD 0 = data.headD 0 := headD_take13 data
  by_cases h1 : data.headD 0 = RESPONSE_OK
  · rw [section_decode_some data h h1,
      section_decode_some (data.take 13) (by rw [List.length_take]; omega)
        (by rw [hh]; exact h1)]
    rw [getD_take_lt data 13 1 (by norm_num), getD_take_lt data 13 2 (by norm_num),
      getD_take_lt data 13 3 (by norm_num), getD_take_lt data 13 4 (by norm_num),
      getD_take_lt data 13 5 (by norm_num), getD_take_lt data 13 6 (by norm_num),
      getD_take_lt data 13 7 (by norm_num), getD_take_lt data 13 8 (by norm_num),
      getD_take_lt data 13 9 (by norm_num), getD_take_lt data 13 10 (by norm_num),
      getD_take_lt data 13 11 (by norm_num), getD_take_lt data 13 12 (by norm_num)]
  · rw [(section_decode_none_iff data).mpr (Or.inr h1),
      (section_decode_none_iff (data.take 13)).mpr (Or.inr (by rw [hh]; exact h1))]

theorem c10_witness :
    MeterSectionInfo.from_response [1, 97, 160, 191, 231, 97, 162, 162, 63, 4, 6, 0, 120, 99] =
      MeterSectionInfo.from_response
        (List.take 13 [1, 97, 160, 191, 231, 97, 162, 162, 63, 4, 6, 0, 120, 99]) :=
  c10_section_info_take13 [1, 97, 160, 191, 231, 97, 162, 162, 63, 4, 6, 0, 120, 99] (by decide)

end MeterReader
